import Mathlib

/-!
Verification development for the Financiera Ancestral API server
(`src/api_server.py`): a shallow embedding of the request-admission and
caching layer (the `RateLimiter` class, the `DataCache` class, the
`require_rate_limit` decorator and the cached query endpoints), together
with theorems settling the specification's claims about them.

Modelling conventions:
* Timestamps (`time.time()`) and durations are modelled as `Int` seconds;
  all claims are order/arithmetic-generic, so the integer model is faithful.
* Python `dict`s with string keys are modelled as association lists
  (`List (String × _)`) with insertion-order-preserving update, matching
  CPython dict semantics for insertion, in-place value replacement and
  comprehension-based filtering.
* JSON-serializable Python values are modelled by `PyVal`, including the
  Python truthiness test used by `if cached_data:`.
* The SQLite data store is an external collaborator (spec section 1); query
  results are passed to the embedded handlers as parameters, exactly where
  the source consumes `cursor.fetchall()` / `cursor.fetchone()` rows.
* Filesystem faults of the file-based cache (OSError, JSONDecodeError) are
  modelled by an explicit `FaultModel`; the raw fallible operations return
  `Except` and the public `get`/`set` wrap them with the source's
  `try/except` handlers.
-/

/-- Lookup in an association list, mirroring Python dict membership and
`d[k]` for string-keyed dicts (first — and, for a genuine dict, only —
binding wins). -/
def lookupA {α : Type} (l : List (String × α)) (k : String) : Option α :=
  (l.find? (fun p => p.1 == k)).map (fun p => p.2)

/-- Update in an association list, mirroring Python `d[k] = v`: replaces the
value in place when the key is present, otherwise appends a new binding at
the end (CPython insertion-order semantics). -/
def insertA {α : Type} (l : List (String × α)) (k : String) (v : α) : List (String × α) :=
  if l.any (fun p => p.1 == k) then
    l.map (fun p => if p.1 == k then (k, v) else p)
  else
    l ++ [(k, v)]

/-- Deletion from an association list, mirroring removal of the backing
record (e.g. `cache_file.unlink()`). -/
def eraseA {α : Type} (l : List (String × α)) (k : String) : List (String × α) :=
  l.filter (fun p => !(p.1 == k))

/-- The `RateLimiter` class of `api_server.py` (lines 32-67): configuration
plus the `self.requests` dict mapping client IPs to timestamp lists. -/
structure RateLimiter where
  max_requests : Int
  window_seconds : Int
  requests : List (String × List Int)
deriving DecidableEq, Repr

/-- `RateLimiter.__init__` (lines 35-38): stores `max_requests` and
`window_minutes * 60`; performs no validation of either argument. -/
def RateLimiter.init (max_requests : Int) (window_minutes : Int) : RateLimiter :=
  { max_requests := max_requests
    window_seconds := window_minutes * 60
    requests := [] }

/-- `RateLimiter.is_allowed` (lines 40-67).  Returns the boolean result and
the mutated limiter state.  Steps, in source order: compute the cutoff;
rebuild `self.requests` keeping only clients with some timestamp newer than
the cutoff (whole entries are kept or dropped — individual stale timestamps
of surviving clients are NOT removed here); ensure the requesting client has
an entry; replace the client's list by its timestamps newer than the cutoff;
reject if the remaining count reaches `max_requests`, otherwise append the
current time and admit.  The global prune (lines 44-49) is `prune_clients`:
it keeps exactly the clients having some timestamp newer than the cutoff,
keeping each surviving client's list whole.  Lines 52-53 (`if client_ip not
in self.requests: self.requests[client_ip] = []`) are `ensure_client`. -/
def prune_clients (requests : List (String × List Int)) (cutoff_time : Int) :
    List (String × List Int) :=
  requests.filter (fun p => p.2.any (fun ts => decide (cutoff_time < ts)))

/-- See the comment on `prune_clients`: lines 52-53 of the source. -/
def ensure_client (requests : List (String × List Int)) (client_ip : String) :
    List (String × List Int) :=
  if (lookupA requests client_ip).isNone then insertA requests client_ip [] else requests

/-- `RateLimiter.is_allowed` (lines 40-67), composed from the steps above in
source order. -/
def RateLimiter.is_allowed (st : RateLimiter) (client_ip : String) (current_time : Int) :
    Bool × RateLimiter :=
  let cutoff_time := current_time - st.window_seconds
  let requests1 := prune_clients st.requests cutoff_time
  let requests2 := ensure_client requests1 client_ip
  let recent := ((lookupA requests2 client_ip).getD []).filter (fun ts => decide (cutoff_time < ts))
  let requests3 := insertA requests2 client_ip recent
  if st.max_requests ≤ (recent.length : Int) then
    (false, { st with requests := requests3 })
  else
    (true, { st with requests := insertA requests3 client_ip (recent ++ [current_time]) })

/-- The requesting client's previously recorded timestamps that are strictly
newer than the cutoff `current_time - window_seconds`, computed from the
pre-call state (lines 55-59 of the source compute exactly this list, since
the global prune either keeps a client's list whole or drops it whole). -/
def recent_requests (st : RateLimiter) (client : String) (t : Int) : List Int :=
  ((lookupA st.requests client).getD []).filter (fun ts => decide (t - st.window_seconds < ts))

/-- Run a sequence of `is_allowed` calls for one client at the given times,
collecting the admission decisions and the final limiter state. -/
def run_calls (st : RateLimiter) (client : String) (ts : List Int) : List Bool × RateLimiter :=
  match ts with
  | [] => ([], st)
  | t :: rest =>
    let r := st.is_allowed client t
    let rr := run_calls r.2 client rest
    (r.1 :: rr.1, rr.2)

/-- JSON-serializable Python values as produced and cached by the server. -/
inductive PyVal where
  | none
  | bool (b : Bool)
  | int (n : Int)
  | str (s : String)
  | list (xs : List PyVal)
  | dict (entries : List (String × PyVal))

/-- Python truthiness, as tested by `if cached_data:` — `None`, `False`,
`0`, `""`, `[]` and `{}` are falsy. -/
def PyVal.truthy : PyVal → Bool
  | .none => false
  | .bool b => b
  | .int n => n != 0
  | .str s => !(s == "")
  | .list xs => !xs.isEmpty
  | .dict es => !es.isEmpty

/-- Truthiness of an `Optional` value (`None` is falsy), as used on the
result of `cache.get`. -/
def pyTruthyOpt (o : Option PyVal) : Bool :=
  match o with
  | Option.none => false
  | Option.some v => v.truthy

/-- Lookup of a key in a `PyVal.dict` payload. -/
def PyVal.dictGet : PyVal → String → Option PyVal
  | .dict es, k => lookupA es k
  | _, _ => Option.none

/-- Content of one cache file: either a JSON document that decodes to a
value, or bytes that fail JSON decoding (corrupt / partially written). -/
inductive CacheEntry where
  | ok (v : PyVal)
  | corrupt

/-- Faults the file-based cache can hit: `OSError` from stat/unlink/open or
`json.JSONDecodeError` from parsing. -/
inductive CacheFault where
  | osError
  | jsonDecodeError

/-- Which storage operations fault during one cache call (models the
filesystem's behaviour, an external collaborator). -/
structure FaultModel where
  statFault : Bool
  unlinkFault : Bool
  readFault : Bool
  writeFault : Bool

/-- A fault-free filesystem. -/
def noFaults : FaultModel :=
  { statFault := false, unlinkFault := false, readFault := false, writeFault := false }

/-- The `DataCache` class of `api_server.py` (lines 89-124): TTL plus the
cache directory contents, one entry per key with its file's mtime. -/
structure DataCache where
  ttl_seconds : Int
  store : List (String × CacheEntry × Int)

/-- `DataCache.__init__` (lines 92-95): stores `ttl_minutes * 60`; the cache
directory starts (possibly) empty. -/
def DataCache.init (ttl_minutes : Int) : DataCache :=
  { ttl_seconds := ttl_minutes * 60, store := [] }

/-- The body of `DataCache.get` (lines 97-114) with its faults made
explicit: missing file returns `None` outside the `try`; then `stat` (may
raise OSError), the TTL check, `unlink` of an expired file (may raise
OSError), and `open`+`json.load` (may raise OSError or JSONDecodeError). -/
def DataCache.getRaw (c : DataCache) (key : String) (now : Int) (f : FaultModel) :
    Except CacheFault (Option PyVal × DataCache) :=
  match lookupA c.store key with
  | Option.none => Except.ok (Option.none, c)
  | Option.some (e, mtime) =>
    if f.statFault then Except.error CacheFault.osError
    else if now - mtime > c.ttl_seconds then
      if f.unlinkFault then Except.error CacheFault.osError
      else Except.ok (Option.none, { ttl_seconds := c.ttl_seconds, store := eraseA c.store key })
    else if f.readFault then Except.error CacheFault.osError
    else
      match e with
      | CacheEntry.ok v => Except.ok (Option.some v, c)
      | CacheEntry.corrupt => Except.error CacheFault.jsonDecodeError

/-- `DataCache.get` (lines 97-114): the raw body wrapped in the source's
`except (json.JSONDecodeError, OSError)` handler, which logs and returns
`None` with the store unchanged. -/
def DataCache.get (c : DataCache) (key : String) (now : Int) (f : FaultModel) :
    Option PyVal × DataCache :=
  match c.getRaw key now f with
  | Except.ok r => r
  | Except.error _ => (Option.none, c)

/-- The body of `DataCache.set` (lines 116-124) with its fault explicit:
`open`+`json.dump` may raise OSError; on success the entry is overwritten
with the current write time. -/
def DataCache.setRaw (c : DataCache) (key : String) (v : PyVal) (now : Int) (f : FaultModel) :
    Except CacheFault DataCache :=
  if f.writeFault then Except.error CacheFault.osError
  else Except.ok { ttl_seconds := c.ttl_seconds, store := insertA c.store key (CacheEntry.ok v, now) }

/-- `DataCache.set` (lines 116-124): the raw body wrapped in the source's
`except OSError` handler, which logs and leaves the caller to proceed. -/
def DataCache.set (c : DataCache) (key : String) (v : PyVal) (now : Int) (f : FaultModel) :
    DataCache :=
  match c.setRaw key v now f with
  | Except.ok c' => c'
  | Except.error _ => c

/-- An HTTP response: status code and JSON payload. -/
structure Response where
  status : Int
  payload : PyVal

/-- Result of running an endpoint handler body: the response, the cache
state afterwards, and the cache keys it looked up and wrote (for stating
cache-bypass properties). -/
structure HandlerResult where
  response : Response
  cache : DataCache
  cacheLookups : List String
  cacheWrites : List String

/-- A handler body as wrapped by `require_rate_limit`: a function of the
cache state and the current time. -/
def HandlerFn : Type := DataCache → Int → HandlerResult

/-- Outcome of one request through the `require_rate_limit` decorator. -/
structure GateOutcome where
  response : Response
  limiter : RateLimiter
  cache : DataCache
  handlerInvoked : Bool
  cacheLookups : List String
  cacheWrites : List String

/-- The throttling payload built by `require_rate_limit` (lines 167-170):
an error label plus a message naming the configured request limit and
window length in minutes. -/
def rateLimitPayload (rate_limit_requests rate_limit_window : Int) : PyVal :=
  PyVal.dict
    [("error", PyVal.str "Rate limit exceeded"),
     ("message", PyVal.str ("Maximum " ++ toString rate_limit_requests ++ " requests per "
        ++ toString rate_limit_window ++ " minutes"))]

/-- The `require_rate_limit` decorator (lines 159-175): calls
`rate_limiter.is_allowed(client_ip)` first; on rejection returns the 429
throttling response without touching the cache or the handler; on admission
invokes the wrapped handler.  The limiter state is mutated in both cases. -/
def require_rate_limit (rate_limit_requests rate_limit_window : Int) (limiter : RateLimiter)
    (cache : DataCache) (h : HandlerFn) (client_ip : String) (t : Int) : GateOutcome :=
  let r := limiter.is_allowed client_ip t
  if r.1 then
    let hr := h cache t
    { response := hr.response, limiter := r.2, cache := hr.cache,
      handlerInvoked := true, cacheLookups := hr.cacheLookups, cacheWrites := hr.cacheWrites }
  else
    { response := { status := 429,
                    payload := rateLimitPayload rate_limit_requests rate_limit_window },
      limiter := r.2, cache := cache,
      handlerInvoked := false, cacheLookups := [], cacheWrites := [] }

/-- The fixed decade enumeration of `validate_decade` (lines 177-181). -/
def valid_decades : List String :=
  ["1920s", "1930s", "1940s", "1950s", "1960s", "1970s",
   "1980s", "1990s", "2000s", "2010s", "2020s"]

/-- `validate_decade` (lines 177-181): membership in the fixed list. -/
def validate_decade (decade : String) : Bool :=
  valid_decades.contains decade

/-- The fixed market enumeration of `validate_market` (lines 183-186). -/
def valid_markets : List String :=
  ["NYSE", "Frankfurt", "Tokyo", "Hong Kong"]

/-- `validate_market` (lines 183-186): membership in the fixed list. -/
def validate_market (market : String) : Bool :=
  valid_markets.contains market

/-- Python truthiness of an optional query-parameter string, as in
`if decade and ...` — `None` and `""` are falsy. -/
def strTruthy (o : Option String) : Bool :=
  match o with
  | Option.none => false
  | Option.some s => !(s == "")

/-- Python `s or dflt` for an optional string, as in `decade or 'all'`. -/
def pyOr (o : Option String) (dflt : String) : String :=
  match o with
  | Option.none => dflt
  | Option.some s => if s == "" then dflt else s

/-- An optional string rendered into a JSON payload (`None` becomes null). -/
def optPyStr (o : Option String) : PyVal :=
  match o with
  | Option.none => PyVal.none
  | Option.some s => PyVal.str s

/-- `datetime.now().isoformat()`, modelled as a rendering of the model
clock. -/
def isoTimestamp (t : Int) : String :=
  toString t

/-- The `data` payload built by `get_decades` (lines 269-273) from the
distinct decades returned by the data store. -/
def decades_data (dbDecades : List String) (now : Int) : PyVal :=
  PyVal.dict
    [("decades", PyVal.list (dbDecades.map PyVal.str)),
     ("count", PyVal.int dbDecades.length),
     ("timestamp", PyVal.str (isoTimestamp now))]

/-- The `get_decades` endpoint body (lines 252-280).  `dbDecades` stands
for the rows of `SELECT DISTINCT decade FROM stock_data ORDER BY decade`
(the data store is an external collaborator, spec section 1).  Serves the
cached payload only when it is truthy (`if cached_data:`), otherwise
recomputes and caches. -/
def get_decades (fm : FaultModel) (dbDecades : List String) : HandlerFn :=
  fun cache now =>
    let key := "decades_list"
    let g := cache.get key now fm
    if pyTruthyOpt g.1 then
      { response := { status := 200, payload := g.1.getD PyVal.none },
        cache := g.2, cacheLookups := [key], cacheWrites := [] }
    else
      let data := decades_data dbDecades now
      { response := { status := 200, payload := data },
        cache := g.2.set key data now fm, cacheLookups := [key], cacheWrites := [key] }

/-- The `get_decade_data` endpoint (lines 312-365): validates the decade
path parameter first; a validation failure returns 400 with no cache
lookup and no cache write.  On a valid decade it checks the cache and, on
a miss (or falsy cached payload), runs the `try` block.  `tryBlock` stands
for that block (lines 325-365: the data-store query, grouping by market,
response assembly, `cache.set` and error handling) — its internals query
the external data store and are irrelevant to the claims settled here,
which concern only the validation short-circuit in front of it. -/
def get_decade_data (decade : String) (tryBlock : DataCache → Int → HandlerResult)
    (fm : FaultModel) : HandlerFn :=
  fun cache now =>
    if validate_decade decade = false then
      { response := { status := 400,
                      payload := PyVal.dict [("error", PyVal.str "Invalid decade parameter")] },
        cache := cache, cacheLookups := [], cacheWrites := [] }
    else
      let key := "decade_" ++ decade
      let g := cache.get key now fm
      if pyTruthyOpt g.1 then
        { response := { status := 200, payload := g.1.getD PyVal.none },
          cache := g.2, cacheLookups := [key], cacheWrites := [] }
      else
        let b := tryBlock g.2 now
        { response := b.response, cache := b.cache,
          cacheLookups := key :: b.cacheLookups, cacheWrites := b.cacheWrites }

/-- The `data` payload built by `get_statistics` (lines 564-571).  `stats`
stands for `dict(cursor.fetchone())` after the rounding loop (SQL
aggregation over the external data store; float rounding is outside the
integer model). -/
def statistics_data (decade market : Option String) (stats : PyVal) (now : Int) : PyVal :=
  PyVal.dict
    [("statistics", stats),
     ("filters", PyVal.dict [("decade", optPyStr decade), ("market", optPyStr market)]),
     ("timestamp", PyVal.str (isoTimestamp now))]

/-- The `get_statistics` endpoint body (lines 514-578): validates the
optional decade and market query parameters, builds the cache key from
`decade or 'all'` and `market or 'all'`, serves a truthy cached payload,
otherwise recomputes and caches. -/
def get_statistics (fm : FaultModel) (decade market : Option String) (stats : PyVal) :
    HandlerFn :=
  fun cache now =>
    if strTruthy decade && !(validate_decade (decade.getD "")) then
      { response := { status := 400,
                      payload := PyVal.dict [("error", PyVal.str "Invalid decade parameter")] },
        cache := cache, cacheLookups := [], cacheWrites := [] }
    else if strTruthy market && !(validate_market (market.getD "")) then
      { response := { status := 400,
                      payload := PyVal.dict [("error", PyVal.str "Invalid market parameter")] },
        cache := cache, cacheLookups := [], cacheWrites := [] }
    else
      let key := "statistics_" ++ pyOr decade "all" ++ "_" ++ pyOr market "all"
      let g := cache.get key now fm
      if pyTruthyOpt g.1 then
        { response := { status := 200, payload := g.1.getD PyVal.none },
          cache := g.2, cacheLookups := [key], cacheWrites := [] }
      else
        let data := statistics_data decade market stats now
        { response := { status := 200, payload := data },
          cache := g.2.set key data now fm, cacheLookups := [key], cacheWrites := [key] }

/-- The `data` payload built by `get_top_performers` (lines 496-505) from
the rows returned by the data store for the given SQL `LIMIT`. -/
def top_performers_data (decade market : Option String) (limit : Int)
    (stocks : List PyVal) (now : Int) : PyVal :=
  PyVal.dict
    [("top_performers", PyVal.list stocks),
     ("filters", PyVal.dict [("decade", optPyStr decade), ("market", optPyStr market),
                             ("limit", PyVal.int limit)]),
     ("count", PyVal.int stocks.length),
     ("timestamp", PyVal.str (isoTimestamp now))]

/-- The `get_top_performers` endpoint body (lines 457-512): computes
`limit = min(int(request.args.get('limit', 10)), 50)` (no lower bound),
validates the optional decade and market parameters, embeds the limit in
the cache key, serves a truthy cached payload, otherwise queries the data
store with that limit (`queryRows limit` stands for the parameterized
`... ORDER BY total_return DESC LIMIT ?` query against the external data
store), echoes the limit in `filters.limit`, and caches. -/
def get_top_performers (fm : FaultModel) (decade market : Option String)
    (limitParam : Option Int) (queryRows : Int → List PyVal) : HandlerFn :=
  fun cache now =>
    let limit := min (limitParam.getD 10) 50
    if strTruthy decade && !(validate_decade (decade.getD "")) then
      { response := { status := 400,
                      payload := PyVal.dict [("error", PyVal.str "Invalid decade parameter")] },
        cache := cache, cacheLookups := [], cacheWrites := [] }
    else if strTruthy market && !(validate_market (market.getD "")) then
      { response := { status := 400,
                      payload := PyVal.dict [("error", PyVal.str "Invalid market parameter")] },
        cache := cache, cacheLookups := [], cacheWrites := [] }
    else
      let key := "top_performers_" ++ pyOr decade "all" ++ "_" ++ pyOr market "all"
        ++ "_" ++ toString limit
      let g := cache.get key now fm
      if pyTruthyOpt g.1 then
        { response := { status := 200, payload := g.1.getD PyVal.none },
          cache := g.2, cacheLookups := [key], cacheWrites := [] }
      else
        let stocks := queryRows limit
        let data := top_performers_data decade market limit stocks now
        { response := { status := 200, payload := data },
          cache := g.2.set key data now fm, cacheLookups := [key], cacheWrites := [key] }

/-! ## Association-list lemmas -/

theorem lookupA_cons_eq {α : Type} {k' : String} {v' : α} {rest : List (String × α)} {k : String}
    (h : (k' == k) = true) : lookupA ((k', v') :: rest) k = Option.some v' := by
  simp [lookupA, List.find?_cons_of_pos, h]

theorem lookupA_cons_ne {α : Type} {k' : String} {v' : α} {rest : List (String × α)} {k : String}
    (h : (k' == k) = false) : lookupA ((k', v') :: rest) k = lookupA rest k := by
  simp only [lookupA]
  rw [List.find?_cons_of_neg]
  simp [h]

theorem lookupA_eq_none {α : Type} {l : List (String × α)} {k : String}
    (h : ∀ p ∈ l, (p.1 == k) = false) : lookupA l k = Option.none := by
  unfold lookupA
  rw [List.find?_eq_none.mpr]
  · rfl
  · intro x hx
    simp [h x hx]

theorem insertA_cons_eq {α : Type} {k' : String} {v' : α} {rest : List (String × α)}
    {k : String} {v : α} (h : (k' == k) = true) :
    insertA ((k', v') :: rest) k v
      = (k, v) :: rest.map (fun q => if q.1 == k then (k, v) else q) := by
  have hk : k' = k := by simpa using h
  subst hk
  simp [insertA]

theorem insertA_cons_ne {α : Type} {k' : String} {v' : α} {rest : List (String × α)}
    {k : String} {v : α} (h : (k' == k) = false) :
    insertA ((k', v') :: rest) k v = (k', v') :: insertA rest k v := by
  have hk : ¬ k' = k := by simpa using h
  by_cases hany : rest.any (fun p => p.1 == k) = true
  · simp [insertA, h, hany, hk]
  · simp [insertA, h, hany, hk]

theorem lookupA_insertA_self {α : Type} (l : List (String × α)) (k : String) (v : α) :
    lookupA (insertA l k v) k = Option.some v := by
  induction l with
  | nil =>
    simp [insertA, lookupA]
  | cons p rest ih =>
    obtain ⟨k', v'⟩ := p
    by_cases hp : (k' == k) = true
    · rw [insertA_cons_eq hp, lookupA_cons_eq (by simp)]
    · rw [insertA_cons_ne (by simpa using hp), lookupA_cons_ne (by simpa using hp)]
      exact ih

theorem lookupA_eraseA_self {α : Type} (l : List (String × α)) (k : String) :
    lookupA (eraseA l k) k = Option.none := by
  apply lookupA_eq_none
  intro p hp
  have := List.of_mem_filter hp
  simpa using this

theorem mem_of_mem_insertA {α : Type} {l : List (String × α)} {k : String} {v : α}
    {p : String × α} (hm : p ∈ insertA l k v) (hne : (p.1 == k) = false) : p ∈ l := by
  unfold insertA at hm
  split at hm
  · obtain ⟨q, hq, hfq⟩ := List.mem_map.mp hm
    by_cases hq1 : (q.1 == k) = true
    · rw [if_pos hq1] at hfq
      rw [← hfq] at hne
      simp at hne
    · rw [if_neg hq1] at hfq
      rwa [hfq] at hq
  · rcases List.mem_append.mp hm with h | h
    · exact h
    · simp only [List.mem_singleton] at h
      rw [h] at hne
      simp at hne

theorem lookupA_filter_any (l : List (String × List Int)) (k : String) (f : Int → Bool)
    (hnd : (l.map Prod.fst).Nodup) :
    ((lookupA (l.filter (fun p => p.2.any f)) k).getD []).filter f
      = ((lookupA l k).getD []).filter f := by
  induction l with
  | nil => rfl
  | cons p rest ih =>
    obtain ⟨k', v⟩ := p
    simp only [List.map_cons, List.nodup_cons] at hnd
    obtain ⟨hk'nm, hndr⟩ := hnd
    by_cases hp : (k' == k) = true
    · by_cases hv : v.any f = true
      · rw [List.filter_cons_of_pos (by simpa using hv), lookupA_cons_eq hp, lookupA_cons_eq hp]
      · rw [List.filter_cons_of_neg (by simpa using hv), lookupA_cons_eq hp]
        have h1 : lookupA (rest.filter (fun p => p.2.any f)) k = Option.none := by
          apply lookupA_eq_none
          intro q hq
          have hqr : q ∈ rest := List.mem_of_mem_filter hq
          have hk : k' = k := by simpa using hp
          by_cases hqk : (q.1 == k) = true
          · exfalso
            apply hk'nm
            rw [hk]
            have hq1 : q.1 = k := by simpa using hqk
            rw [← hq1]
            exact List.mem_map.mpr ⟨q, hqr, rfl⟩
          · simpa using hqk
        rw [h1]
        have h2 : v.filter f = [] := by
          apply List.filter_eq_nil_iff.mpr
          intro a ha
          have := List.any_eq_false.mp (by simpa using hv) a ha
          simpa using this
        simp [h2]
    · have hp' : (k' == k) = false := by simpa using hp
      by_cases hv : v.any f = true
      · rw [List.filter_cons_of_pos (by simpa using hv), lookupA_cons_ne hp', lookupA_cons_ne hp']
        exact ih hndr
      · rw [List.filter_cons_of_neg (by simpa using hv), lookupA_cons_ne hp']
        exact ih hndr

/-! ## Characterization of `is_allowed` -/

theorem lookupA_ensure_client (l : List (String × List Int)) (c : String) :
    lookupA (ensure_client l c) c = Option.some ((lookupA l c).getD []) := by
  unfold ensure_client
  cases hcase : lookupA l c with
  | none => simp [hcase, lookupA_insertA_self]
  | some v => simp [hcase]

theorem recent_eq (st : RateLimiter) (client : String) (t : Int)
    (hnd : (st.requests.map Prod.fst).Nodup) :
    ((lookupA (ensure_client (prune_clients st.requests (t - st.window_seconds)) client)
        client).getD []).filter (fun ts => decide (t - st.window_seconds < ts))
      = recent_requests st client t := by
  rw [lookupA_ensure_client]
  simp only [Option.getD_some]
  unfold prune_clients recent_requests
  exact lookupA_filter_any st.requests client _ hnd

theorem is_allowed_eq_form (st : RateLimiter) (client : String) (t : Int)
    (hnd : (st.requests.map Prod.fst).Nodup) :
    st.is_allowed client t
      = if st.max_requests ≤ ((recent_requests st client t).length : Int)
        then (false, RateLimiter.mk st.max_requests st.window_seconds
            (insertA (ensure_client (prune_clients st.requests (t - st.window_seconds)) client)
              client (recent_requests st client t)))
        else (true, RateLimiter.mk st.max_requests st.window_seconds
            (insertA
              (insertA (ensure_client (prune_clients st.requests (t - st.window_seconds)) client)
                client (recent_requests st client t))
              client (recent_requests st client t ++ [t]))) := by
  simp only [RateLimiter.is_allowed]
  rw [recent_eq st client t hnd]

theorem is_allowed_decomposed (st : RateLimiter) (client : String) (t : Int)
    (hnd : (st.requests.map Prod.fst).Nodup) :
    ((st.is_allowed client t).1 = false
        ↔ st.max_requests ≤ ((recent_requests st client t).length : Int)) ∧
    lookupA (st.is_allowed client t).2.requests client
      = Option.some (recent_requests st client t
          ++ (if (st.is_allowed client t).1 then [t] else [])) := by
  rw [is_allowed_eq_form st client t hnd]
  by_cases hcond : st.max_requests ≤ ((recent_requests st client t).length : Int)
  · rw [if_pos hcond]
    constructor
    · simp [hcond]
    · simp [lookupA_insertA_self]
  · rw [if_neg hcond]
    constructor
    · simp [hcond]
    · simp [lookupA_insertA_self]

/-! ## Single-client sequences of calls -/

theorem is_allowed_clean (M w : Int) (client : String) (l : List Int) (t : Int)
    (h : ∀ s ∈ l, t - w < s) :
    (RateLimiter.mk M w [(client, l)]).is_allowed client t
      = if M ≤ (l.length : Int)
        then (false, RateLimiter.mk M w [(client, l)])
        else (true, RateLimiter.mk M w [(client, l ++ [t])]) := by
  have hnd : (([(client, l)] : List (String × List Int)).map Prod.fst).Nodup := by simp
  have hrec : recent_requests (RateLimiter.mk M w [(client, l)]) client t = l := by
    unfold recent_requests
    have hlk : lookupA [(client, l)] client = Option.some l := lookupA_cons_eq (by simp)
    dsimp only
    rw [hlk]
    simp only [Option.getD_some]
    exact List.filter_eq_self.mpr (fun a ha => by simpa using h a ha)
  rw [is_allowed_eq_form _ client t hnd, hrec]
  dsimp only
  have hstate : insertA (ensure_client (prune_clients [(client, l)] (t - w)) client) client l
      = [(client, l)] := by
    cases l with
    | nil => simp [prune_clients, ensure_client, insertA, lookupA]
    | cons x xs =>
      have hany : (x :: xs).any (fun ts => decide (t - w < ts)) = true := by
        simp only [List.any_eq_true]
        exact ⟨x, List.mem_cons_self x xs, by simpa using h x (List.mem_cons_self x xs)⟩
      have hpr : prune_clients [(client, x :: xs)] (t - w) = [(client, x :: xs)] := by
        simp [prune_clients, hany]
      rw [hpr]
      have hlk : lookupA [(client, x :: xs)] client = Option.some (x :: xs) :=
        lookupA_cons_eq (by simp)
      rw [ensure_client, hlk]
      simp only [Option.isNone_some, Bool.false_eq_true, if_false]
      rw [insertA_cons_eq (by simp)]
      simp
  rw [hstate]
  have hsing : insertA [(client, l)] client (l ++ [t]) = [(client, l ++ [t])] := by
    rw [insertA_cons_eq (by simp)]
    simp
  rw [hsing]

theorem run_calls_clean (M w : Int) (client : String) (ts : List Int) :
    ∀ (l : List Int),
      (∀ s ∈ l, ∀ u ∈ ts, u - w < s) →
      (∀ u ∈ ts, ∀ u' ∈ ts, u' - u < w) →
      (run_calls (RateLimiter.mk M w [(client, l)]) client ts).1
        = List.replicate (min ts.length (M.toNat - l.length)) true
          ++ List.replicate (ts.length - (M.toNat - l.length)) false := by
  induction ts with
  | nil =>
    intro l _ _
    simp [run_calls]
  | cons t rest ih =>
    intro l hl hw
    have hhead : ∀ s ∈ l, t - w < s := fun s hs => hl s hs t (List.mem_cons_self t rest)
    have hunf : (run_calls (RateLimiter.mk M w [(client, l)]) client (t :: rest)).1
        = ((RateLimiter.mk M w [(client, l)]).is_allowed client t).1
          :: (run_calls ((RateLimiter.mk M w [(client, l)]).is_allowed client t).2
                client rest).1 := rfl
    rw [hunf, is_allowed_clean M w client l t hhead]
    by_cases hM : M ≤ (l.length : Int)
    · rw [if_pos hM]
      dsimp only
      rw [ih l (fun s hs u hu => hl s hs u (List.mem_cons_of_mem t hu))
            (fun u hu u' hu' => hw u (List.mem_cons_of_mem t hu) u' (List.mem_cons_of_mem t hu'))]
      have hk : M.toNat - l.length = 0 := by omega
      simp [hk, List.replicate_succ]
    · rw [if_neg hM]
      dsimp only
      have hl' : ∀ s ∈ l ++ [t], ∀ u ∈ rest, u - w < s := by
        intro s hs u hu
        rcases List.mem_append.mp hs with hsl | hst
        · exact hl s hsl u (List.mem_cons_of_mem t hu)
        · simp only [List.mem_singleton] at hst
          have := hw t (List.mem_cons_self t rest) u (List.mem_cons_of_mem t hu)
          omega
      rw [ih (l ++ [t]) hl'
            (fun u hu u' hu' => hw u (List.mem_cons_of_mem t hu) u' (List.mem_cons_of_mem t hu'))]
      have hlt : l.length < M.toNat := by omega
      have hk : M.toNat - l.length = (M.toNat - (l.length + 1)) + 1 := by omega
      rw [List.length_append, List.length_singleton, hk]
      rw [List.length_cons, Nat.succ_min_succ, Nat.succ_sub_succ]
      simp [List.replicate_succ]

theorem run_calls_fresh (M w : Int) (client : String) (ts : List Int)
    (hw : ∀ u ∈ ts, ∀ u' ∈ ts, u' - u < w) :
    (run_calls (RateLimiter.mk M w []) client ts).1
      = List.replicate (min ts.length M.toNat) true
        ++ List.replicate (ts.length - M.toNat) false := by
  have hbridge : (run_calls (RateLimiter.mk M w []) client ts).1
      = (run_calls (RateLimiter.mk M w [(client, [])]) client ts).1 := by
    cases ts with
    | nil => rfl
    | cons t rest => rfl
  rw [hbridge]
  have := run_calls_clean M w client ts [] (by simp) hw
  simpa using this

theorem mem_of_mem_ensure_client {l : List (String × List Int)} {c : String}
    {p : String × List Int} (hm : p ∈ ensure_client l c) (hne : (p.1 == c) = false) : p ∈ l := by
  unfold ensure_client at hm
  split at hm
  · exact mem_of_mem_insertA hm hne
  · exact hm

/-! ## Claim C1 -/

/-- C1: a call to `RateLimiter.is_allowed` returns `false` — and stores the
client's filtered list with no new timestamp — exactly when the client's
recorded timestamps strictly newer than `now - window_seconds` number at
least `max_requests`; otherwise the current time is appended and the call
returns `true` (first conjunct; `recent_requests` is that filtered list and
`[t]` is appended exactly on admission).  Second conjunct: for any sequence
of calls by a single client against a fresh limiter, all calls lying within
one window (pairwise gaps under `window_seconds`), the decision list is
exactly `max_requests` admissions followed by only rejections — so at most
`max_requests` calls are admitted and the `(max_requests+1)`-th call inside
the window, when it exists, is rejected. -/
theorem rateLimiter_admission_correct :
    (∀ (st : RateLimiter) (client : String) (t : Int),
        (st.requests.map Prod.fst).Nodup →
        (((st.is_allowed client t).1 = false
            ↔ st.max_requests ≤ ((recent_requests st client t).length : Int)) ∧
          lookupA (st.is_allowed client t).2.requests client
            = Option.some (recent_requests st client t
                ++ (if (st.is_allowed client t).1 then [t] else [])))) ∧
    (∀ (M w : Int) (client : String) (ts : List Int),
        (∀ u ∈ ts, ∀ u' ∈ ts, u' - u < w) →
        ((run_calls (RateLimiter.mk M w []) client ts).1
            = List.replicate (min ts.length M.toNat) true
              ++ List.replicate (ts.length - M.toNat) false) ∧
          (run_calls (RateLimiter.mk M w []) client ts).1.count true ≤ M.toNat) :=
  ⟨fun st client t hnd => is_allowed_decomposed st client t hnd,
   fun M w client ts hw => by
     have h := run_calls_fresh M w client ts hw
     refine ⟨h, ?_⟩
     rw [h, List.count_append]
     simp [List.count_replicate]⟩

/-- Witness for C1 at concrete inputs: the per-call characterization at a
state holding one fresh timestamp, and the spec's scenario
`maxRequests = 2, window = 60` with calls at 0, 10, 20 giving
admit, admit, reject. -/
theorem rateLimiter_admission_correct_witness :
    ((((RateLimiter.mk 2 60 [("a", [5])]).is_allowed "a" 30).1 = false
        ↔ (RateLimiter.mk 2 60 [("a", [5])]).max_requests
            ≤ ((recent_requests (RateLimiter.mk 2 60 [("a", [5])]) "a" 30).length : Int)) ∧
      lookupA ((RateLimiter.mk 2 60 [("a", [5])]).is_allowed "a" 30).2.requests "a"
        = Option.some (recent_requests (RateLimiter.mk 2 60 [("a", [5])]) "a" 30
            ++ (if ((RateLimiter.mk 2 60 [("a", [5])]).is_allowed "a" 30).1 then [30] else []))) ∧
    (run_calls (RateLimiter.mk 2 60 []) "a" [0, 10, 20]).1
      = List.replicate (min ([0, 10, 20] : List Int).length (2 : Int).toNat) true
        ++ List.replicate (([0, 10, 20] : List Int).length - (2 : Int).toNat) false :=
  ⟨rateLimiter_admission_correct.1 (RateLimiter.mk 2 60 [("a", [5])]) "a" 30 (by decide),
   (rateLimiter_admission_correct.2 2 60 "a" [0, 10, 20] (by decide)).1⟩

/-! ## Claim C8 -/

/-- C8: with `max_requests = 0` every call to `is_allowed` returns `false`,
for every client identity, every time, and every limiter state — the
remaining-count check `len >= max_requests` always holds at zero. -/
theorem max_requests_zero_rejects_all (st : RateLimiter) (client : String) (t : Int)
    (h : st.max_requests = 0) : (st.is_allowed client t).1 = false := by
  simp only [RateLimiter.is_allowed, h]
  split
  · rfl
  · rename_i hcontra
    exact absurd (Int.natCast_nonneg _) hcontra

/-- Witness for C8: a zero-limit limiter rejects a concrete request. -/
theorem max_requests_zero_rejects_all_witness :
    ((RateLimiter.mk 0 900 []).is_allowed "10.0.0.1" 100).1 = false :=
  max_requests_zero_rejects_all (RateLimiter.mk 0 900 []) "10.0.0.1" 100 rfl

/-! ## Claim C3 -/

/-- C3 counterexample: with window 60 and `max_requests = 0`, starting from
the state where client "b" holds timestamps `[0, 100]`, a call by client
"a" at time 100 leaves `0` stored for "b" even though `0` is not newer than
the cutoff `100 - 60 = 40` (the global prune kept b's whole list because b
also holds the fresh `100`), and leaves "a" mapped to an empty list.  Both
conjuncts of the claim fail at this input. -/
theorem global_prune_counterexample :
    lookupA ((RateLimiter.mk 0 60 [("b", [0, 100])]).is_allowed "a" 100).2.requests "b"
        = Option.some [0, 100] ∧
      ¬ (100 - (RateLimiter.mk 0 60 [("b", [0, 100])]).window_seconds < (0 : Int)) ∧
      lookupA ((RateLimiter.mk 0 60 [("b", [0, 100])]).is_allowed "a" 100).2.requests "a"
        = Option.some [] := by
  decide

/-- C3 (amended): after any call to `is_allowed`, every tracked client
OTHER than the requester survives only if it retains at least one timestamp
newer than the call's cutoff, with its entry otherwise unchanged from the
pre-call state (its individual stale timestamps are NOT discarded); the
requesting client's stored list contains only timestamps newer than the
cutoff plus possibly the appended current time; and the requesting client's
list is empty only when the call rejected with `max_requests ≤ 0`. -/
theorem is_allowed_prune_invariant_amended (st : RateLimiter) (client : String) (t : Int)
    (hnd : (st.requests.map Prod.fst).Nodup) :
    (∀ p ∈ (st.is_allowed client t).2.requests, (p.1 == client) = false →
        p ∈ st.requests
          ∧ p.2.any (fun ts => decide (t - st.window_seconds < ts)) = true) ∧
    (∀ l, lookupA (st.is_allowed client t).2.requests client = Option.some l →
        (∀ s ∈ l, t - st.window_seconds < s ∨ s = t) ∧
          (l = [] → (st.is_allowed client t).1 = false ∧ st.max_requests ≤ 0)) := by
  rw [is_allowed_eq_form st client t hnd]
  by_cases hcond : st.max_requests ≤ ((recent_requests st client t).length : Int)
  · rw [if_pos hcond]
    dsimp only
    constructor
    · intro p hp hne
      have h1 := mem_of_mem_insertA hp hne
      have h2 := mem_of_mem_ensure_client h1 hne
      unfold prune_clients at h2
      have h3 := List.mem_filter.mp h2
      exact ⟨h3.1, h3.2⟩
    · intro l hl
      rw [lookupA_insertA_self] at hl
      have hl' : recent_requests st client t = l := Option.some.inj hl
      constructor
      · intro s hs
        rw [← hl'] at hs
        unfold recent_requests at hs
        exact Or.inl (by simpa using (List.mem_filter.mp hs).2)
      · intro hemp
        refine ⟨rfl, ?_⟩
        rw [hl', hemp] at hcond
        simpa using hcond
  · rw [if_neg hcond]
    dsimp only
    constructor
    · intro p hp hne
      have h1 := mem_of_mem_insertA hp hne
      have h2 := mem_of_mem_insertA h1 hne
      have h3 := mem_of_mem_ensure_client h2 hne
      unfold prune_clients at h3
      have h4 := List.mem_filter.mp h3
      exact ⟨h4.1, h4.2⟩
    · intro l hl
      rw [lookupA_insertA_self] at hl
      have hl' : recent_requests st client t ++ [t] = l := Option.some.inj hl
      constructor
      · intro s hs
        rw [← hl'] at hs
        rcases List.mem_append.mp hs with hsl | hst
        · unfold recent_requests at hsl
          exact Or.inl (by simpa using (List.mem_filter.mp hsl).2)
        · exact Or.inr (by simpa using hst)
      · intro hemp
        rw [← hl'] at hemp
        exact absurd hemp (by simp)

/-- Witness for C3 (amended) at a concrete state: client "b" keeps its
entry unchanged after a call by "a", and the element 100 of "a"'s stored
list is newer than the cutoff or equals the call time. -/
theorem is_allowed_prune_invariant_amended_witness :
    (("b", ([50, 100] : List Int)) ∈ (RateLimiter.mk 5 60 [("b", [50, 100])]).requests ∧
        ([50, 100] : List Int).any
          (fun ts => decide (100 - (RateLimiter.mk 5 60 [("b", [50, 100])]).window_seconds < ts))
          = true) ∧
    (100 - (RateLimiter.mk 5 60 [("b", [50, 100])]).window_seconds < 100 ∨ (100 : Int) = 100) :=
  ⟨(is_allowed_prune_invariant_amended (RateLimiter.mk 5 60 [("b", [50, 100])]) "a" 100
      (by decide)).1 ("b", [50, 100]) (by decide) (by decide),
   ((is_allowed_prune_invariant_amended (RateLimiter.mk 5 60 [("b", [50, 100])]) "a" 100
      (by decide)).2 [100] (by decide)).1 100 (by decide)⟩

/-! ## Claim C7 -/

/-- C7 counterexample: constructing the limiter with `window_minutes = 0`
(so `window_seconds = 0 ≤ 0`) is not rejected: it succeeds, returns a
limiter, and that limiter operates — it even admits a request — instead of
failing fast at construction. -/
theorem rateLimiter_init_no_validation_counterexample :
    RateLimiter.init 100 0 = RateLimiter.mk 100 0 [] ∧
    ((RateLimiter.init 100 0).is_allowed "1.2.3.4" 5).1 = true := by
  decide

/-- C7 (amended): `RateLimiter.__init__` performs no validation: for any
non-positive `window_minutes` it returns a limiter whose `window_seconds`
equals `window_minutes * 60 ≤ 0` and which silently operates — a fresh such
limiter admits a request exactly when `0 < max_requests`. -/
theorem rateLimiter_init_accepts_nonpositive_window (mr wm : Int) (h : wm ≤ 0) :
    (RateLimiter.init mr wm).window_seconds = wm * 60 ∧
    (RateLimiter.init mr wm).window_seconds ≤ 0 ∧
    (∀ (client : String) (t : Int),
        ((RateLimiter.init mr wm).is_allowed client t).1 = decide (0 < mr)) := by
  refine ⟨rfl, by simpa [RateLimiter.init] using by omega, ?_⟩
  intro client t
  have hbr : (RateLimiter.init mr wm).is_allowed client t
      = (RateLimiter.mk mr (wm * 60) [(client, [])]).is_allowed client t := rfl
  rw [hbr, is_allowed_clean mr (wm * 60) client [] t (by simp)]
  by_cases hmr : 0 < mr
  · rw [if_neg (by simpa using hmr)]
    simp [hmr]
  · rw [if_pos (by simpa using hmr)]
    simp [hmr]

/-- Witness for C7 (amended) at `max_requests = 100, window_minutes = 0`. -/
theorem rateLimiter_init_accepts_nonpositive_window_witness :
    (RateLimiter.init 100 0).window_seconds = 0 * 60 ∧
    ((RateLimiter.init 100 0).is_allowed "a" 7).1 = decide ((0 : Int) < 100) :=
  ⟨(rateLimiter_init_accepts_nonpositive_window 100 0 (by decide)).1,
   (rateLimiter_init_accepts_nonpositive_window 100 0 (by decide)).2.2 "a" 7⟩

/-! ## Cache lemmas -/

theorem set_noFaults_eq (c : DataCache) (k : String) (v : PyVal) (t : Int) :
    c.set k v t noFaults
      = DataCache.mk c.ttl_seconds (insertA c.store k (CacheEntry.ok v, t)) := rfl

theorem get_hit (c : DataCache) (k : String) (v : PyVal) (m t : Int)
    (hlk : lookupA c.store k = Option.some (CacheEntry.ok v, m))
    (hfresh : ¬ (t - m > c.ttl_seconds)) :
    c.get k t noFaults = (Option.some v, c) := by
  simp only [DataCache.get, DataCache.getRaw, hlk]
  simp [noFaults, hfresh]

theorem get_expired (c : DataCache) (k : String) (e : CacheEntry) (m t : Int)
    (hlk : lookupA c.store k = Option.some (e, m))
    (hexp : t - m > c.ttl_seconds) :
    c.get k t noFaults
      = (Option.none, DataCache.mk c.ttl_seconds (eraseA c.store k)) := by
  simp only [DataCache.get, DataCache.getRaw, hlk]
  simp [noFaults, hexp]

theorem get_missing (c : DataCache) (k : String) (t : Int) (f : FaultModel)
    (hlk : lookupA c.store k = Option.none) :
    c.get k t f = (Option.none, c) := by
  simp only [DataCache.get, DataCache.getRaw, hlk]

/-! ## Claim C4 -/

/-- C4: `Set(k, v)` followed by `Get(k)` within `ttl_seconds` of the set
returns `v`; a get strictly more than `ttl_seconds` after the set returns
not-found and physically removes the entry, so any subsequent get with no
intervening set also returns not-found rather than a stale hit; and a get
for a key never set returns not-found. -/
theorem dataCache_ttl_correct :
    (∀ (c : DataCache) (k : String) (v : PyVal) (t1 t2 : Int),
        t2 - t1 ≤ c.ttl_seconds →
        ((c.set k v t1 noFaults).get k t2 noFaults).1 = Option.some v) ∧
    (∀ (c : DataCache) (k : String) (v : PyVal) (t1 t2 : Int),
        t2 - t1 > c.ttl_seconds →
        (((c.set k v t1 noFaults).get k t2 noFaults).1 = Option.none ∧
          lookupA ((c.set k v t1 noFaults).get k t2 noFaults).2.store k = Option.none ∧
          (∀ t3 : Int, ((((c.set k v t1 noFaults).get k t2 noFaults).2).get k t3 noFaults).1
              = Option.none))) ∧
    (∀ (c : DataCache) (k : String) (t : Int),
        lookupA c.store k = Option.none → (c.get k t noFaults).1 = Option.none) := by
  refine ⟨?_, ?_, ?_⟩
  · intro c k v t1 t2 h
    rw [set_noFaults_eq]
    rw [get_hit _ k v t1 t2 (by dsimp only; exact lookupA_insertA_self _ _ _)
        (by dsimp only; omega)]
  · intro c k v t1 t2 h
    rw [set_noFaults_eq]
    rw [get_expired _ k (CacheEntry.ok v) t1 t2 (by dsimp only; exact lookupA_insertA_self _ _ _)
        (by dsimp only; omega)]
    refine ⟨rfl, ?_, ?_⟩
    · dsimp only
      exact lookupA_eraseA_self _ _
    · intro t3
      rw [get_missing _ k t3 noFaults (by dsimp only; exact lookupA_eraseA_self _ _)]
  · intro c k t hlk
    rw [get_missing _ k t noFaults hlk]

/-- Witness for C4: a concrete set at time 0 with TTL 3600 is returned at
time 10, missed and removed at time 4000, and a never-set key misses. -/
theorem dataCache_ttl_correct_witness :
    (((DataCache.init 60).set "decades_list" (PyVal.str "x") 0 noFaults).get
          "decades_list" 10 noFaults).1 = Option.some (PyVal.str "x") ∧
    (((DataCache.init 60).set "decades_list" (PyVal.str "x") 0 noFaults).get
          "decades_list" 4000 noFaults).1 = Option.none ∧
    ((DataCache.init 60).get "missing" 5 noFaults).1 = Option.none :=
  ⟨dataCache_ttl_correct.1 (DataCache.init 60) "decades_list" (PyVal.str "x") 0 10 (by decide),
   (dataCache_ttl_correct.2.1 (DataCache.init 60) "decades_list" (PyVal.str "x") 0 4000
      (by decide)).1,
   dataCache_ttl_correct.2.2 (DataCache.init 60) "missing" 5 rfl⟩

/-! ## Claim C6 -/

/-- C6: `DataCache.get` and `DataCache.set` never propagate a storage or
parse fault: a corrupt (undecodable) entry makes `get` return not-found
just like a missing entry, under any fault pattern; an OSError during stat
or read makes `get` return not-found; every raw-body fault is caught by the
wrapper, which returns `(none, c)` — store unchanged, no exception; and a
write failure leaves the cache unchanged with `set` returning normally, so
the caller proceeds as if nothing was cached. -/
theorem dataCache_fault_swallowing :
    (∀ (c : DataCache) (k : String) (t m : Int) (f : FaultModel),
        lookupA c.store k = Option.some (CacheEntry.corrupt, m) →
        (c.get k t f).1 = Option.none) ∧
    (∀ (c : DataCache) (k : String) (t : Int) (f : FaultModel),
        f.statFault = true ∨ f.readFault = true →
        (c.get k t f).1 = Option.none) ∧
    (∀ (c : DataCache) (k : String) (t : Int) (f : FaultModel) (e : CacheFault),
        c.getRaw k t f = Except.error e → c.get k t f = (Option.none, c)) ∧
    (∀ (c : DataCache) (k : String) (v : PyVal) (t : Int) (f : FaultModel),
        f.writeFault = true → c.set k v t f = c) := by
  refine ⟨?_, ?_, ?_, ?_⟩
  · intro c k t m f hlk
    simp only [DataCache.get, DataCache.getRaw, hlk]
    split_ifs <;> simp
  · intro c k t f hor
    cases hlk : lookupA c.store k with
    | none => rw [get_missing c k t f hlk]
    | some p =>
      obtain ⟨e, m⟩ := p
      simp only [DataCache.get, DataCache.getRaw, hlk]
      rcases hor with hs | hr
      · simp [hs]
      · rw [hr]
        split_ifs <;> first | rfl | (rename_i hcontra; exact absurd rfl hcontra)
  · intro c k t f e herr
    simp only [DataCache.get, herr]
  · intro c k v t f hw
    simp [DataCache.set, DataCache.setRaw, hw]

/-- Witness for C6: a corrupt concrete entry is read as not-found; a stat
fault is read as not-found; a write fault leaves the concrete cache
unchanged. -/
theorem dataCache_fault_swallowing_witness :
    ((DataCache.mk 3600 [("stats", (CacheEntry.corrupt, 0))]).get "stats" 10 noFaults).1
        = Option.none ∧
    ((DataCache.init 60).get "decades_list" 5 (FaultModel.mk true false false false)).1
        = Option.none ∧
    (DataCache.init 60).set "decades_list" PyVal.none 5 (FaultModel.mk false false false true)
        = DataCache.init 60 :=
  ⟨dataCache_fault_swallowing.1 (DataCache.mk 3600 [("stats", (CacheEntry.corrupt, 0))])
      "stats" 10 0 noFaults rfl,
   dataCache_fault_swallowing.2.1 (DataCache.init 60) "decades_list" 5
      (FaultModel.mk true false false false) (Or.inl rfl),
   dataCache_fault_swallowing.2.2.2 (DataCache.init 60) "decades_list" PyVal.none 5
      (FaultModel.mk false false false true) rfl⟩

/-! ## Request gate -/

theorem is_allowed_lookup_self (st : RateLimiter) (client : String) (t : Int) :
    ∃ l, lookupA (st.is_allowed client t).2.requests client
        = Option.some (l ++ (if (st.is_allowed client t).1 then [t] else [])) := by
  simp only [RateLimiter.is_allowed]
  split
  · simp only [List.append_nil, Bool.false_eq_true, if_false]
    exact ⟨_, lookupA_insertA_self _ _ _⟩
  · simp only [if_true]
    exact ⟨_, lookupA_insertA_self _ _ _⟩

/-! ## Claim C5 -/

/-- C5: when the limiter rejects the requesting client,
`require_rate_limit` answers with status 429 and the structured throttling
payload — error label "Rate limit exceeded" and a human-readable message
naming the configured request limit and window duration — and the rejected
request performs no cache lookup, no cache write, and no handler
invocation, leaving the cache untouched. -/
theorem rate_limited_response_429 (R W : Int) (limiter : RateLimiter) (cache : DataCache)
    (h : HandlerFn) (client : String) (t : Int)
    (hrej : (limiter.is_allowed client t).1 = false) :
    (require_rate_limit R W limiter cache h client t).response.status = 429 ∧
    (require_rate_limit R W limiter cache h client t).response.payload = rateLimitPayload R W ∧
    PyVal.dictGet (require_rate_limit R W limiter cache h client t).response.payload "error"
        = Option.some (PyVal.str "Rate limit exceeded") ∧
    PyVal.dictGet (require_rate_limit R W limiter cache h client t).response.payload "message"
        = Option.some (PyVal.str ("Maximum " ++ toString R ++ " requests per "
            ++ toString W ++ " minutes")) ∧
    (require_rate_limit R W limiter cache h client t).handlerInvoked = false ∧
    (require_rate_limit R W limiter cache h client t).cacheLookups = [] ∧
    (require_rate_limit R W limiter cache h client t).cacheWrites = [] ∧
    (require_rate_limit R W limiter cache h client t).cache = cache := by
  have hgate : require_rate_limit R W limiter cache h client t
      = { response := Response.mk 429 (rateLimitPayload R W),
          limiter := (limiter.is_allowed client t).2, cache := cache,
          handlerInvoked := false, cacheLookups := [], cacheWrites := [] } := by
    simp only [require_rate_limit, hrej, Bool.false_eq_true, if_false]
  rw [hgate]
  exact ⟨rfl, rfl, rfl, rfl, rfl, rfl, rfl, rfl⟩

/-- Witness for C5: a zero-limit limiter rejects a concrete request, which
is answered 429 without invoking the handler. -/
theorem rate_limited_response_429_witness :
    (require_rate_limit 100 15 (RateLimiter.mk 0 60 []) (DataCache.init 60)
        (fun c _ => HandlerResult.mk (Response.mk 200 PyVal.none) c [] []) "a" 0).response.status
      = 429 ∧
    (require_rate_limit 100 15 (RateLimiter.mk 0 60 []) (DataCache.init 60)
        (fun c _ => HandlerResult.mk (Response.mk 200 PyVal.none) c [] []) "a" 0).handlerInvoked
      = false :=
  ⟨(rate_limited_response_429 100 15 (RateLimiter.mk 0 60 []) (DataCache.init 60)
      (fun c _ => HandlerResult.mk (Response.mk 200 PyVal.none) c [] []) "a" 0 (by decide)).1,
   (rate_limited_response_429 100 15 (RateLimiter.mk 0 60 []) (DataCache.init 60)
      (fun c _ => HandlerResult.mk (Response.mk 200 PyVal.none) c [] []) "a" 0
      (by decide)).2.2.2.2.1⟩

/-! ## Claim C2 -/

/-- C2 counterexample: with the default configuration (100 requests / 15
minutes) and a fresh limiter, the invalid request for decade "1890s" is
answered 400 — yet a timestamp for the client IS recorded by the limiter,
because the rate-limit decorator runs before parameter validation.  This
contradicts the claim's assertion that a validation failure does not
increase the limiter's admission count. -/
theorem validation_counts_against_limiter_counterexample :
    (require_rate_limit 100 15 (RateLimiter.init 100 15) (DataCache.init 60)
        (get_decade_data "1890s" (fun c _ => HandlerResult.mk (Response.mk 500 PyVal.none) c [] [])
          noFaults) "1.2.3.4" 0).response.status = 400 ∧
    lookupA (require_rate_limit 100 15 (RateLimiter.init 100 15) (DataCache.init 60)
        (get_decade_data "1890s" (fun c _ => HandlerResult.mk (Response.mk 500 PyVal.none) c [] [])
          noFaults) "1.2.3.4" 0).limiter.requests "1.2.3.4" = Option.some [0] :=
  ⟨rfl, rfl⟩

/-- C2 (amended): a request whose decade path parameter fails validation is
answered with a client-error response — 400 with the invalid-decade payload
when admitted by the limiter, 429 when rejected — and never causes a cache
lookup or a cache write; but it is NOT invisible to the limiter: the
limiter state advances exactly as `is_allowed` dictates, and on admission a
timestamp for this request IS recorded for the client, because the
rate-limit decorator runs before validation. -/
theorem validation_failure_no_cache_write_but_counted (R W : Int) (limiter : RateLimiter)
    (cache : DataCache) (tryBlock : DataCache → Int → HandlerResult) (fm : FaultModel)
    (decade client : String) (t : Int)
    (hinv : validate_decade decade = false) :
    (require_rate_limit R W limiter cache (get_decade_data decade tryBlock fm)
        client t).cacheWrites = [] ∧
    (require_rate_limit R W limiter cache (get_decade_data decade tryBlock fm)
        client t).cacheLookups = [] ∧
    (require_rate_limit R W limiter cache (get_decade_data decade tryBlock fm)
        client t).limiter = (limiter.is_allowed client t).2 ∧
    ((limiter.is_allowed client t).1 = true →
        ((require_rate_limit R W limiter cache (get_decade_data decade tryBlock fm)
            client t).response
          = Response.mk 400 (PyVal.dict [("error", PyVal.str "Invalid decade parameter")]) ∧
        (∃ l, lookupA (require_rate_limit R W limiter cache (get_decade_data decade tryBlock fm)
            client t).limiter.requests client = Option.some (l ++ [t])))) ∧
    ((limiter.is_allowed client t).1 = false →
        (require_rate_limit R W limiter cache (get_decade_data decade tryBlock fm)
            client t).response.status = 429) := by
  by_cases hadm : (limiter.is_allowed client t).1 = true
  · have hgate : require_rate_limit R W limiter cache (get_decade_data decade tryBlock fm) client t
        = { response := Response.mk 400
              (PyVal.dict [("error", PyVal.str "Invalid decade parameter")]),
            limiter := (limiter.is_allowed client t).2, cache := cache,
            handlerInvoked := true, cacheLookups := [], cacheWrites := [] } := by
      simp only [require_rate_limit, hadm, if_true, get_decade_data, hinv]
    rw [hgate]
    refine ⟨rfl, rfl, rfl, fun _ => ⟨rfl, ?_⟩, fun hcontra => ?_⟩
    · obtain ⟨l, hl⟩ := is_allowed_lookup_self limiter client t
      rw [hadm] at hl
      simp only [if_true] at hl
      exact ⟨l, hl⟩
    · rw [hadm] at hcontra
      cases hcontra
  · have hrej : (limiter.is_allowed client t).1 = false := by
      simpa using hadm
    have hgate : require_rate_limit R W limiter cache (get_decade_data decade tryBlock fm) client t
        = { response := Response.mk 429 (rateLimitPayload R W),
            limiter := (limiter.is_allowed client t).2, cache := cache,
            handlerInvoked := false, cacheLookups := [], cacheWrites := [] } := by
      simp only [require_rate_limit, hrej, Bool.false_eq_true, if_false]
    rw [hgate]
    refine ⟨rfl, rfl, rfl, fun hcontra => ?_, fun _ => rfl⟩
    rw [hrej] at hcontra
    cases hcontra

/-- Witness for C2 (amended): the invalid decade "1890s" with an admitting
limiter is answered 400 and causes no cache write. -/
theorem validation_failure_no_cache_write_but_counted_witness :
    (require_rate_limit 5 1 (RateLimiter.mk 5 60 []) (DataCache.init 60)
        (get_decade_data "1890s" (fun c _ => HandlerResult.mk (Response.mk 500 PyVal.none) c [] [])
          noFaults) "a" 0).cacheWrites = [] ∧
    (require_rate_limit 5 1 (RateLimiter.mk 5 60 []) (DataCache.init 60)
        (get_decade_data "1890s" (fun c _ => HandlerResult.mk (Response.mk 500 PyVal.none) c [] [])
          noFaults) "a" 0).response
      = Response.mk 400 (PyVal.dict [("error", PyVal.str "Invalid decade parameter")]) :=
  ⟨(validation_failure_no_cache_write_but_counted 5 1 (RateLimiter.mk 5 60 []) (DataCache.init 60)
      (fun c _ => HandlerResult.mk (Response.mk 500 PyVal.none) c [] []) noFaults "1890s" "a" 0
      rfl).1,
   ((validation_failure_no_cache_write_but_counted 5 1 (RateLimiter.mk 5 60 []) (DataCache.init 60)
      (fun c _ => HandlerResult.mk (Response.mk 500 PyVal.none) c [] []) noFaults "1890s" "a" 0
      rfl).2.2.2.1 (by decide)).1⟩

/-! ## Claim C9 -/

/-- C9: a stored cache entry whose payload is falsy as a Python truth value
(for example an empty dict) is never served even when present and within
TTL: both `get_decades` and `get_statistics` test the cached value with
`if cached_data:`, so a falsy hit is treated as a miss and the handler
recomputes and rewrites the key; the cached payload short-circuits the
handler only when it is truthy. -/
theorem falsy_cache_payload_recomputed
    (fm : FaultModel) (dbDecades : List String) (stats : PyVal) (d m : Option String)
    (cache : DataCache) (now : Int) (v : PyVal) :
    (((cache.get "decades_list" now fm).1 = Option.some v → v.truthy = false →
        ((get_decades fm dbDecades cache now).cacheWrites = ["decades_list"] ∧
          (get_decades fm dbDecades cache now).response.payload = decades_data dbDecades now)) ∧
      ((cache.get "decades_list" now fm).1 = Option.some v → v.truthy = true →
        ((get_decades fm dbDecades cache now).response.payload = v ∧
          (get_decades fm dbDecades cache now).cacheWrites = []))) ∧
    ((strTruthy d && !(validate_decade (d.getD ""))) = false →
      (strTruthy m && !(validate_market (m.getD ""))) = false →
      (((cache.get ("statistics_" ++ pyOr d "all" ++ "_" ++ pyOr m "all") now fm).1
            = Option.some v → v.truthy = false →
          ((get_statistics fm d m stats cache now).cacheWrites
              = ["statistics_" ++ pyOr d "all" ++ "_" ++ pyOr m "all"] ∧
            (get_statistics fm d m stats cache now).response.payload
              = statistics_data d m stats now)) ∧
        ((cache.get ("statistics_" ++ pyOr d "all" ++ "_" ++ pyOr m "all") now fm).1
            = Option.some v → v.truthy = true →
          ((get_statistics fm d m stats cache now).response.payload = v ∧
            (get_statistics fm d m stats cache now).cacheWrites = [])))) := by
  constructor
  · constructor
    · intro hv hfal
      have hmiss : pyTruthyOpt (cache.get "decades_list" now fm).1 = false := by
        rw [hv]
        simpa [pyTruthyOpt] using hfal
      simp only [get_decades, hmiss, Bool.false_eq_true, if_false]
      exact ⟨trivial, trivial⟩
    · intro hv htru
      have hhit : pyTruthyOpt (cache.get "decades_list" now fm).1 = true := by
        rw [hv]
        simpa [pyTruthyOpt] using htru
      simp only [get_decades, hhit, if_true]
      rw [hv]
      exact ⟨rfl, trivial⟩
  · intro hd hm
    constructor
    · intro hv hfal
      have hmiss : pyTruthyOpt
          (cache.get ("statistics_" ++ pyOr d "all" ++ "_" ++ pyOr m "all") now fm).1 = false := by
        rw [hv]
        simpa [pyTruthyOpt] using hfal
      simp only [get_statistics, hd, hm, Bool.false_eq_true, if_false, hmiss]
      exact ⟨trivial, trivial⟩
    · intro hv htru
      have hhit : pyTruthyOpt
          (cache.get ("statistics_" ++ pyOr d "all" ++ "_" ++ pyOr m "all") now fm).1 = true := by
        rw [hv]
        simpa [pyTruthyOpt] using htru
      simp only [get_statistics, hd, hm, Bool.false_eq_true, if_false, hhit, if_true]
      rw [hv]
      exact ⟨rfl, trivial⟩

/-- Witness for C9: a concrete cache holding the empty dict (falsy) at
"decades_list" within TTL is recomputed, while a truthy cached payload is
served as-is. -/
theorem falsy_cache_payload_recomputed_witness :
    (get_decades noFaults ["1920s"]
        (DataCache.mk 3600 [("decades_list", (CacheEntry.ok (PyVal.dict []), 0))]) 10).cacheWrites
      = ["decades_list"] ∧
    (get_decades noFaults ["1920s"]
        (DataCache.mk 3600 [("decades_list", (CacheEntry.ok (PyVal.str "hit"), 0))])
        10).response.payload
      = PyVal.str "hit" :=
  ⟨((falsy_cache_payload_recomputed noFaults ["1920s"] PyVal.none Option.none Option.none
      (DataCache.mk 3600 [("decades_list", (CacheEntry.ok (PyVal.dict []), 0))]) 10
      (PyVal.dict [])).1.1 rfl rfl).1,
   ((falsy_cache_payload_recomputed noFaults ["1920s"] PyVal.none Option.none Option.none
      (DataCache.mk 3600 [("decades_list", (CacheEntry.ok (PyVal.str "hit"), 0))]) 10
      (PyVal.str "hit")).1.2 rfl rfl).1⟩

/-! ## Claim C10 -/

/-- C10: in `get_top_performers` the effective limit is
`min(int(request.args.get('limit', 10)), 50)`: this value is embedded in
the cache key the handler looks up, passed as the SQL LIMIT parameter to
the data store on a miss, echoed in the response's `filters.limit`, and
used as the key written back.  Values above 50 are clamped to 50; values at
most 50 — the default 10, zero, and negatives included — pass through
unchanged (no lower bound). -/
theorem top_performers_limit_clamp (fm : FaultModel) (d m : Option String) (L : Option Int)
    (q : Int → List PyVal) (cache : DataCache) (now : Int)
    (hd : (strTruthy d && !(validate_decade (d.getD ""))) = false)
    (hm : (strTruthy m && !(validate_market (m.getD ""))) = false) :
    (get_top_performers fm d m L q cache now).cacheLookups
        = ["top_performers_" ++ pyOr d "all" ++ "_" ++ pyOr m "all" ++ "_"
            ++ toString (min (L.getD 10) 50)] ∧
    (pyTruthyOpt ((cache.get ("top_performers_" ++ pyOr d "all" ++ "_" ++ pyOr m "all" ++ "_"
            ++ toString (min (L.getD 10) 50)) now fm).1) = false →
        ((get_top_performers fm d m L q cache now).response.payload
            = top_performers_data d m (min (L.getD 10) 50) (q (min (L.getD 10) 50)) now ∧
          PyVal.dictGet ((PyVal.dictGet (get_top_performers fm d m L q cache now).response.payload
                "filters").getD PyVal.none) "limit"
            = Option.some (PyVal.int (min (L.getD 10) 50)) ∧
          (get_top_performers fm d m L q cache now).cacheWrites
            = ["top_performers_" ++ pyOr d "all" ++ "_" ++ pyOr m "all" ++ "_"
                ++ toString (min (L.getD 10) 50)])) ∧
    ((L.getD 10 : Int) ≤ 50 → min (L.getD 10) 50 = L.getD 10) ∧
    (50 ≤ (L.getD 10 : Int) → min (L.getD 10) 50 = 50) := by
  refine ⟨?_, ?_, fun h => min_eq_left h, fun h => min_eq_right h⟩
  · by_cases hc : pyTruthyOpt ((cache.get ("top_performers_" ++ pyOr d "all" ++ "_"
        ++ pyOr m "all" ++ "_" ++ toString (min (L.getD 10) 50)) now fm).1) = true
    · simp only [get_top_performers, hd, hm, Bool.false_eq_true, if_false, hc, if_true]
    · have hc' : pyTruthyOpt ((cache.get ("top_performers_" ++ pyOr d "all" ++ "_"
          ++ pyOr m "all" ++ "_" ++ toString (min (L.getD 10) 50)) now fm).1) = false := by
        simpa using hc
      simp only [get_top_performers, hd, hm, Bool.false_eq_true, if_false, hc']
  · intro hmiss
    simp only [get_top_performers, hd, hm, Bool.false_eq_true, if_false, hmiss]
    exact ⟨trivial, rfl, trivial⟩

/-- Witness for C10: with no filters and limit parameter 99 the effective
limit is clamped to 50, and it is the value embedded in the cache key. -/
theorem top_performers_limit_clamp_witness :
    (get_top_performers noFaults Option.none Option.none (Option.some 99) (fun _ => [])
        (DataCache.init 60) 0).cacheLookups
      = ["top_performers_" ++ pyOr Option.none "all" ++ "_" ++ pyOr Option.none "all" ++ "_"
          ++ toString (min ((Option.some (99 : Int)).getD 10) 50)] ∧
    min ((Option.some (99 : Int)).getD 10) 50 = 50 :=
  ⟨(top_performers_limit_clamp noFaults Option.none Option.none (Option.some 99) (fun _ => [])
      (DataCache.init 60) 0 rfl rfl).1,
   (top_performers_limit_clamp noFaults Option.none Option.none (Option.some 99) (fun _ => [])
      (DataCache.init 60) 0 rfl rfl).2.2.2 (by decide)⟩
